import Mathlib

/-!
Verification development for the cip-ws-server repository.

Shallow embedding of the core subsystems:
* `src/lib/utils/httpRange.js` (range responder),
* `src/lib/utils/mediaCache.js` (volatile + disk media cache) and the
  `GET media/:messageId` route of `src/routes/chatRoutes.js`,
* `src/lib/sessions/sessionManager.js` (session registry),
* the `downloadMedia` / `downloadMessageMedia` pair of the chat manager,
* the socket fan-out of the server entry point.

JavaScript `Map`s are embedded as association lists with JS `Map` semantics
(`set` updates in place or appends, `delete` removes the entry); byte buffers
are `List Nat`; external asynchronous calls (client initialisation, media
download attempts, filesystem removal) are passed in as explicit outcome
parameters, so each embedded operation is a pure function of its inputs.
-/

namespace CipWs

/-- Decidable equality on `Except`, so that concrete runs of the embedded
operations can be checked by `decide`. -/
instance {ε α : Type} [DecidableEq ε] [DecidableEq α] : DecidableEq (Except ε α) := fun x y =>
  match x, y with
  | .ok a, .ok b =>
      if h : a = b then .isTrue (by rw [h])
      else .isFalse (by intro hc; cases hc; exact h rfl)
  | .ok _, .error _ => .isFalse (by intro hc; cases hc)
  | .error _, .ok _ => .isFalse (by intro hc; cases hc)
  | .error e, .error f =>
      if h : e = f then .isTrue (by rw [h])
      else .isFalse (by intro hc; cases hc; exact h rfl)

/-! ## Association lists with JS Map semantics -/

/-- Lookup in a JS-`Map`-like association list (`Map.get`). -/
def getA {α : Type} : List (String × α) → String → Option α
  | [], _ => none
  | (k', v) :: rest, k => if k' = k then some v else getA rest k

/-- Key membership (`Map.has`). -/
def hasA {α : Type} (m : List (String × α)) (k : String) : Bool :=
  (getA m k).isSome

/-- `Map.set`: update the existing entry in place, else append at the end. -/
def setA {α : Type} : List (String × α) → String → α → List (String × α)
  | [], k, v => [(k, v)]
  | (k', v') :: rest, k, v =>
      if k' = k then (k', v) :: rest else (k', v') :: setA rest k v

/-- `Map.delete`: remove the entry for the key. -/
def delA {α : Type} : List (String × α) → String → List (String × α)
  | [], _ => []
  | (k', v') :: rest, k => if k' = k then rest else (k', v') :: delA rest k

/-! ## JS `String.prototype.split` on a non-empty literal separator -/

/-- Fuelled worker for `jsSplit`; the fuel is always instantiated to more
than the length of the input, so the `0` case is never reached. -/
def jsSplitFuel (sep : List Char) : Nat → List Char → List Char → List (List Char)
  | 0, cs, acc => [acc.reverse ++ cs]
  | fuel + 1, cs, acc =>
      match cs with
      | [] => [acc.reverse]
      | c :: rest =>
          if sep ≠ [] ∧ cs.take sep.length = sep then
            acc.reverse :: jsSplitFuel sep fuel (cs.drop sep.length) []
          else
            jsSplitFuel sep fuel rest (c :: acc)

/-- JS `s.split(sep)` for a non-empty literal separator: splits at every
left-to-right, non-overlapping occurrence; keeps empty segments. -/
def jsSplit (sep s : String) : List String :=
  (jsSplitFuel sep.toList (s.toList.length + 1) s.toList []).map String.mk

/-! ## RangeResponder: `src/lib/utils/httpRange.js` -/

/-- The HTTP response assembled by `sendBufferWithRange`.  `Content-Type` and
`Accept-Ranges` are set on every branch, as in the source. -/
structure RangeResponse where
  status : Nat
  contentType : String
  acceptRanges : String
  contentRange : Option String
  contentLength : Option String
  contentDisposition : Option String
  body : List Nat
deriving DecidableEq, Repr

/-- Value of `parseInt` on a non-empty decimal digit string. -/
def decDigits (cs : List Char) : Nat :=
  cs.foldl (fun n c => n * 10 + (c.toNat - 48)) 0

/-- The regex `/^bytes=(\d*)-(\d*)$/` of the source: the header must be
`bytes=` followed by two (possibly empty) digit groups separated by exactly
one dash; returns the two capture groups. -/
def parseRangeGroups (s : String) : Option (List Char × List Char) :=
  let cs := s.toList
  if cs.take 6 = "bytes=".toList then
    match (cs.drop 6).splitOn '-' with
    | [a, b] => if a.all Char.isDigit ∧ b.all Char.isDigit then some (a, b) else none
    | _ => none
  else none

/-- Embedding of `sendBufferWithRange(res, buffer, mimetype, filename,
rangeHeader)`.  A present-but-empty range header is falsy in JS and is
treated as absent.  `start`/`end` are computed exactly as in the source:
an omitted start is `0`, an omitted or out-of-bounds end is clamped to
`size - 1` (as an integer, so that the empty buffer is handled as in JS). -/
def sendBufferWithRange (buffer : List Nat) (mimetype filename : String)
    (rangeHeader : Option String) : RangeResponse :=
  let size := buffer.length
  let disposition := "inline; filename=\"" ++ filename ++ "\""
  if h : rangeHeader.isSome ∧ rangeHeader.getD "" ≠ "" then
    let hdr := rangeHeader.getD ""
    match parseRangeGroups hdr with
    | none =>
        { status := 416, contentType := mimetype, acceptRanges := "bytes",
          contentRange := none, contentLength := none,
          contentDisposition := none, body := [] }
    | some (g1, g2) =>
        let start : Int := if g1 = [] then 0 else (decDigits g1 : Int)
        let endB : Int := if g2 = [] then (size : Int) - 1
                          else min (decDigits g2 : Int) ((size : Int) - 1)
        if start > endB ∨ start ≥ (size : Int) then
          { status := 416, contentType := mimetype, acceptRanges := "bytes",
            contentRange := none, contentLength := none,
            contentDisposition := none, body := [] }
        else
          let chunk := (buffer.drop start.toNat).take (endB.toNat + 1 - start.toNat)
          { status := 206, contentType := mimetype, acceptRanges := "bytes",
            contentRange := some ("bytes " ++ toString start ++ "-" ++ toString endB
              ++ "/" ++ toString size),
            contentLength := some (toString chunk.length),
            contentDisposition := some disposition, body := chunk }
  else
    { status := 200, contentType := mimetype, acceptRanges := "bytes",
      contentRange := none, contentLength := some (toString size),
      contentDisposition := some disposition, body := buffer }

/-! ## Tiered media cache: `src/lib/utils/mediaCache.js` -/

/-- A cached media artifact: decoded bytes plus metadata. -/
structure MediaEntry where
  buffer : List Nat
  mimetype : String
  filename : String
deriving DecidableEq, Repr

/-- The volatile in-memory cache `MEMORY_CACHE`: per key, the value and its
insertion timestamp `ts` (milliseconds). -/
abbrev MemCache := List (String × (MediaEntry × Nat))

/-- `TTL_MS = 10 * 60 * 1000` — the 10-minute volatile TTL. -/
def TTL_MS : Nat := 10 * 60 * 1000

/-- `memGet(k)` at current time `now`: absent key misses; an entry with
`now - ts > TTL_MS` is deleted and misses; otherwise the value is returned
and the cache is unchanged.  Returns the result together with the
possibly-mutated cache. -/
def memGet (mem : MemCache) (k : String) (now : Nat) : Option MediaEntry × MemCache :=
  match getA mem k with
  | none => (none, mem)
  | some (v, ts) => if now - ts > TTL_MS then (none, delA mem k) else (some v, mem)

/-- `memSet(k, value)` at current time `now`. -/
def memSet (mem : MemCache) (k : String) (v : MediaEntry) (now : Nat) : MemCache :=
  setA mem k (v, now)

/-- One on-disk sidecar pair for a message id: the `.bin` payload and the
`.json` metadata (`mimetype`, `filename`). -/
structure DiskEntry where
  buffer : List Nat
  mimetype : String
  filename : String
deriving DecidableEq, Repr

/-- `diskLoad(messageId)` applied to the disk state for that key: a missing
pair misses; a hit substitutes `media_<id>` for a JS-falsy (empty) stored
filename. -/
def diskLoad (d : Option DiskEntry) (messageId : String) : Option MediaEntry :=
  d.map (fun e =>
    { buffer := e.buffer, mimetype := e.mimetype,
      filename := if e.filename = "" then "media_" ++ messageId else e.filename })

/-! ## `GET /sessions/:accountId/:label/media/:messageId` of
`src/routes/chatRoutes.js` -/

/-- Result of `chatManager.downloadMedia` as consumed by the route: decoded
bytes plus metadata, or a thrown error message. -/
structure FetchedMedia where
  data : List Nat
  mimetype : String
  filename : String
deriving DecidableEq, Repr

/-- Outcome of the media route: either a range-responder reply or an error
reply with an HTTP status and JSON error message. -/
inductive MediaRouteResult where
  | served (resp : RangeResponse)
  | errorReply (status : Nat) (errorMsg : String)
deriving DecidableEq, Repr

/-- Everything the media route did: the response, the volatile cache after
the request, the disk write performed (if any), and whether the downloader
was invoked. -/
structure MediaRouteOutput where
  result : MediaRouteResult
  mem : MemCache
  diskWrite : Option (String × DiskEntry)
  downloaderCalled : Bool
deriving DecidableEq, Repr

/-- Embedding of the media route body.  The route reads the disk twice —
once before deciding to fetch and once as fallback after a failed fetch —
so the two reads are separate inputs `disk1`, `disk2` (they coincide unless
a concurrent write raced in between).  `fetch` is the outcome of
`chatManager.downloadMedia`. -/
def mediaRoute (mem : MemCache) (disk1 disk2 : Option DiskEntry) (now : Nat)
    (messageId : String) (fetch : Except String FetchedMedia)
    (rangeHeader : Option String) : MediaRouteOutput :=
  let (c0, mem0) := memGet mem messageId now
  match c0 with
  | some entry =>
      { result := .served (sendBufferWithRange entry.buffer entry.mimetype entry.filename rangeHeader),
        mem := mem0, diskWrite := none, downloaderCalled := false }
  | none =>
      match diskLoad disk1 messageId with
      | some entry =>
          { result := .served (sendBufferWithRange entry.buffer entry.mimetype entry.filename rangeHeader),
            mem := memSet mem0 messageId entry now,
            diskWrite := none, downloaderCalled := false }
      | none =>
          match fetch with
          | .ok media =>
              let entry : MediaEntry :=
                { buffer := media.data, mimetype := media.mimetype,
                  filename := if media.filename = "" then "media_" ++ messageId else media.filename }
              { result := .served (sendBufferWithRange entry.buffer entry.mimetype entry.filename rangeHeader),
                mem := memSet mem0 messageId entry now,
                diskWrite := some (messageId,
                  { buffer := entry.buffer, mimetype := entry.mimetype, filename := entry.filename }),
                downloaderCalled := true }
          | .error _ =>
              match diskLoad disk2 messageId with
              | some entry =>
                  { result := .served (sendBufferWithRange entry.buffer entry.mimetype entry.filename rangeHeader),
                    mem := memSet mem0 messageId entry now,
                    diskWrite := none, downloaderCalled := true }
              | none =>
                  { result := .errorReply 410
                      "Media not available from WhatsApp (expired or not in recent history).",
                    mem := mem0, diskWrite := none, downloaderCalled := true }

/-! ## Session registry: `src/lib/sessions/sessionManager.js` -/

/-- The normalized message payload emitted with registry-level `message`
events (`id`, `from`, `to`, `body`, `type`, `fromMe`, `timestamp`,
`hasMedia`). -/
structure MsgPayload where
  idSer : String
  msgFrom : String
  msgTo : String
  body : String
  msgType : String
  fromMe : Bool
  timestamp : Nat
  hasMedia : Bool
deriving DecidableEq, Repr

/-- The registry-level events the `SessionManager` emits, with their
payload fields. -/
inductive RegEvent where
  | qrEv (accountId label qr : String)
  | statusEv (accountId label status : String) (hasQr : Option Bool)
  | messageEv (accountId label : String) (m : MsgPayload)
  | sessionDestroyedEv (accountId label : String)
deriving DecidableEq, Repr

/-- The external `whatsapp-web.js` client handle as far as the registry
observes it: the `LocalAuth` `clientId` and `dataPath` it was created
with. -/
structure WClientHandle where
  clientId : String
  dataPath : String
deriving DecidableEq, Repr

/-- The `SessionManager`'s mutable state: the four parallel maps keyed by
`accountId::label`, the credential root `dataPath`, and the names of the
directories currently present under that root (the filesystem as the
manager reads and writes it). -/
structure SMState where
  clients : List (String × WClientHandle)
  states : List (String × String)
  qrs : List (String × String)
  selfIds : List (String × String)
  dataPath : String
  fsDirs : List String
deriving DecidableEq, Repr

/-- `keyOf(accountId, label)`. -/
def keyOf (accountId label : String) : String :=
  accountId ++ "::" ++ label

/-- A freshly constructed `SessionManager` over an existing empty
credential root. -/
def smEmpty : SMState :=
  { clients := [], states := [], qrs := [], selfIds := [],
    dataPath := "./.wwebjs_auth", fsDirs := [] }

/-- One element of `getAllSessions()`. -/
structure SessionInfo where
  accountId : String
  label : String
  status : String
  waId : Option String
  hasQr : Bool
deriving DecidableEq, Repr

/-- `getAllSessions()`: one record per registered client, splitting the key
back into `accountId`/`label` and defaulting a missing state to
`unknown`. -/
def getAllSessions (s : SMState) : List SessionInfo :=
  s.clients.map (fun kv =>
    let parts := jsSplit "::" kv.1
    { accountId := parts.headD "", label := (parts[1]?).getD "",
      status := (getA s.states kv.1).getD "unknown",
      waId := getA s.selfIds kv.1,
      hasQr := hasA s.qrs kv.1 })

/-- The object `initSession` resolves with: the stored status (absent when
the key has no recorded state), the `exists` flag, and — on the
already-registered branch only — the `hasQr` flag. -/
structure InitSnapshot where
  accountId : String
  label : String
  status : Option String
  already : Bool
  hasQr : Option Bool
deriving DecidableEq, Repr

/-- Embedding of `initSession(accountId, label)`.  `initResult` is the
outcome of the external `client.initialize()` call.  Mirrors the source:
an already-registered key returns its snapshot unchanged; at five or more
registered clients a fresh key throws `Maximum session limit (5) reached`;
otherwise a client handle bound to `accountId__label` under `dataPath` is
registered with status `initializing`, and a failing initialisation
removes the `clients` and `states` entries again and rethrows.  Returns
the call's outcome together with the state after the call. -/
def initSession (s : SMState) (accountId label : String)
    (initResult : Except String Unit) : Except String InitSnapshot × SMState :=
  let key := keyOf accountId label
  if hasA s.clients key then
    (.ok { accountId, label, status := getA s.states key,
           already := true, hasQr := some (hasA s.qrs key) }, s)
  else if 5 ≤ s.clients.length then
    (.error "Maximum session limit (5) reached", s)
  else
    let client : WClientHandle := { clientId := accountId ++ "__" ++ label, dataPath := s.dataPath }
    let s1 := { s with clients := setA s.clients key client,
                       states := setA s.states key "initializing" }
    match initResult with
    | .ok _ =>
        (.ok { accountId, label, status := some "initializing",
               already := false, hasQr := none }, s1)
    | .error e =>
        (.error e, { s1 with clients := delA s1.clients key, states := delA s1.states key })

/-- The object `destroySession` resolves with. -/
structure DestroySnapshot where
  accountId : String
  label : String
  destroyed : Bool
deriving DecidableEq, Repr

/-- Embedding of `destroySession(accountId, label)`.  `destroyResult` is the
outcome of the external `client.destroy()` call and `rmResult` the outcome
of the recursive directory removal; both are swallowed when they fail.
Registry bookkeeping is removed only when a client handle existed (as in
the source); the `session_destroyed` event is always emitted and the call
always resolves with `destroyed: true`. -/
def destroySession (s : SMState) (accountId label : String)
    (destroyResult rmResult : Except String Unit) :
    DestroySnapshot × SMState × List RegEvent :=
  let key := keyOf accountId label
  let _ := destroyResult
  let s1 :=
    if hasA s.clients key then
      { s with clients := delA s.clients key, states := delA s.states key,
               qrs := delA s.qrs key, selfIds := delA s.selfIds key }
    else s
  let dirName := "session-" ++ accountId ++ "__" ++ label
  let s2 :=
    if s1.fsDirs.contains dirName then
      match rmResult with
      | .ok _ => { s1 with fsDirs := s1.fsDirs.filter (fun d => d ≠ dirName) }
      | .error _ => s1
    else s1
  ({ accountId, label, destroyed := true }, s2, [.sessionDestroyedEv accountId label])

/-- The object `getSessionStatus` returns. -/
structure StatusSnapshot where
  accountId : String
  label : String
  status : String
  hasQr : Bool
  waId : Option String
deriving DecidableEq, Repr

/-- `getSessionStatus(accountId, label)`: a pure read defaulting a missing
state to `not_found`. -/
def getSessionStatus (s : SMState) (accountId label : String) : StatusSnapshot :=
  let key := keyOf accountId label
  { accountId, label, status := (getA s.states key).getD "not_found",
    hasQr := hasA s.qrs key, waId := getA s.selfIds key }

/-- `parseSessionDir(dirName)`: strips the `session-` prefix; a name
containing `__` with two non-empty parts yields `(accountId, label)`; the
legacy name `default-client` maps to `(default, main)`; anything else is a
legacy session `(legacy, sessionId)`. -/
def parseSessionDir (dirName : String) : Option (String × String) :=
  if dirName.toList.take 8 = "session-".toList then
    let sessionId := dirName.drop 8
    let parts := jsSplit "__" sessionId
    let viaSplit : Option (String × String) :=
      if 2 ≤ parts.length then
        let accountId := parts.headD ""
        let label := (parts[1]?).getD ""
        if accountId ≠ "" ∧ label ≠ "" then some (accountId, label) else none
      else none
    match viaSplit with
    | some r => some r
    | none =>
        if sessionId = "default-client" then some ("default", "main")
        else some ("legacy", sessionId)
  else none

/-- One element of `detectSessions()`. -/
structure DetectedSession where
  directory : String
  accountId : String
  label : String
  active : Bool
deriving DecidableEq, Repr

/-- `detectSessions()`: scans the credential root for `session-` directories,
parses each name, keeps those with truthy (non-empty) `accountId` and
`label`, and marks whether the key is currently registered. -/
def detectSessions (s : SMState) : List DetectedSession :=
  s.fsDirs.filterMap (fun d =>
    if d.toList.take 8 = "session-".toList then
      match parseSessionDir d with
      | some (a, l) =>
          if a ≠ "" ∧ l ≠ "" then
            some { directory := d, accountId := a, label := l,
                   active := hasA s.clients (keyOf a l) }
          else none
      | none => none
    else none)

/-- One element of `autoRestoreAllSessions().results`. -/
structure RestoreEntry where
  accountId : String
  label : String
  status : String
  error : Option String
deriving DecidableEq, Repr

/-- The summary object `autoRestoreAllSessions` resolves with. -/
structure RestoreSummary where
  restored : Nat
  total : Nat
  results : List RestoreEntry
deriving DecidableEq, Repr

/-- The restore loop over the detected entries: an active entry records
`already_active`; an inactive one calls `initSession` (with the external
initialisation outcome given by `oracle`), recording `restored` on success
and `error` with the thrown message on failure, and always continues with
the remaining entries. -/
def autoRestoreLoop (oracle : String → String → Except String Unit) :
    SMState → List DetectedSession → Nat × List RestoreEntry × SMState
  | s, [] => (0, [], s)
  | s, d :: rest =>
      if d.active then
        let (n, es, s') := autoRestoreLoop oracle s rest
        (n, { accountId := d.accountId, label := d.label,
              status := "already_active", error := none } :: es, s')
      else
        match initSession s d.accountId d.label (oracle d.accountId d.label) with
        | (.ok _, s1) =>
            let (n, es, s') := autoRestoreLoop oracle s1 rest
            (n + 1, { accountId := d.accountId, label := d.label,
                      status := "restored", error := none } :: es, s')
        | (.error e, s1) =>
            let (n, es, s') := autoRestoreLoop oracle s1 rest
            (n, { accountId := d.accountId, label := d.label,
                  status := "error", error := some e } :: es, s')

/-- `autoRestoreAllSessions()`: detect persisted sessions, then run the
restore loop over every detected entry. -/
def autoRestoreAllSessions (s : SMState)
    (oracle : String → String → Except String Unit) : RestoreSummary × SMState :=
  let detected := detectSessions s
  if detected.length = 0 then ({ restored := 0, total := 0, results := [] }, s)
  else
    let (n, es, s') := autoRestoreLoop oracle s detected
    ({ restored := n, total := detected.length, results := es }, s')

/-! ## Retrying media downloader: `downloadMedia` / `downloadMessageMedia`
of the chat manager (`src/lib/contacts/contactsManager.js`, first
`ChatManager` document) -/

/-- A message as the downloader observes it: its serialized id, whether it
carries media, and its body (used as the fallback filename). -/
structure WMessage where
  idSer : String
  hasMedia : Bool
  body : String
deriving DecidableEq, Repr

/-- A chat's message history, most recent first; `fetchMessages({limit})`
returns the `limit` most recent messages, i.e. `messages.take limit`. -/
structure WChat where
  messages : List WMessage
deriving DecidableEq, Repr

/-- The external client surface the downloader uses: `getMessageById` (a
thrown error or a falsy result both appear as `none`, since the source
treats them alike), `getChatById` (`none` when it throws), and
`getChats`. -/
structure WClient where
  byId : String → Option WMessage
  chatById : String → Option WChat
  allChats : List WChat

/-- What one `message.downloadMedia()` attempt did: threw, or resolved with
a possibly-absent media object (`data` is the base64 text; JS treats an
empty string as falsy). -/
structure MediaBlob where
  data : String
  mimetype : String
deriving DecidableEq, Repr

/-- Outcome of one retry attempt. -/
inductive AttemptResult where
  | threw (msg : String)
  | returned (m : Option MediaBlob)
deriving DecidableEq, Repr

/-- The object `downloadMessageMedia` resolves with on success. -/
structure DownloadSuccess where
  success : Bool
  data : String
  mimetype : String
  filename : String
  messageId : String
deriving DecidableEq, Repr

/-- `getFileExtension(mimetype)`. -/
def getFileExtension (mimetype : String) : String :=
  if mimetype = "image/jpeg" then "jpg"
  else if mimetype = "image/png" then "png"
  else if mimetype = "image/gif" then "gif"
  else if mimetype = "image/webp" then "webp"
  else if mimetype = "video/mp4" then "mp4"
  else if mimetype = "video/3gpp" then "3gp"
  else if mimetype = "audio/ogg" then "ogg"
  else if mimetype = "audio/ogg; codecs=opus" then "opus"
  else if mimetype = "audio/aac" then "aac"
  else if mimetype = "application/pdf" then "pdf"
  else if mimetype = "application/octet-stream" then "bin"
  else "bin"

/-- `maxAttempts = 5`. -/
def maxAttempts : Nat := 5

/-- `baseDelayMs = 400`. -/
def baseDelayMs : Nat := 400

/-- An attempt succeeds exactly when `downloadMedia()` resolved to a truthy
media object with truthy (non-empty) `data`. -/
def successOf : AttemptResult → Option MediaBlob
  | .returned (some m) => if m.data = "" then none else some m
  | _ => none

/-- The `lastErr` recorded by a failed attempt: the thrown error, or the
`no media data returned` error for an empty result. -/
def failMsgOf : AttemptResult → String
  | .threw e => e
  | .returned _ => "Failed to download media - no media data returned"

/-- The success object built from a media blob (`filename` falls back from
a falsy `message.body` to `media_<id>.<ext>`). -/
def mkDownloadSuccess (message : WMessage) (messageId : String)
    (m : MediaBlob) : DownloadSuccess :=
  { success := true, data := m.data, mimetype := m.mimetype,
    filename := if message.body = "" then
        "media_" ++ messageId ++ "." ++ getFileExtension m.mimetype
      else message.body,
    messageId }

/-- The retry loop of `downloadMessageMedia`: `fuel` is the number of
attempts left, `attempt` the 1-based attempt counter, `lastErr` the last
recorded failure.  Each failed attempt waits
`baseDelayMs * 2 ^ (attempt - 1) + jitter attempt` (also after the final
attempt, as in the source); the returned list is the sequence of waits. -/
def retryLoop (message : WMessage) (messageId : String)
    (oracle : Nat → AttemptResult) (jitter : Nat → Nat) :
    Nat → Nat → Option String → Except String DownloadSuccess × List Nat
  | 0, _, lastErr => (.error (lastErr.getD "Failed to download media"), [])
  | fuel + 1, attempt, _ =>
      match successOf (oracle attempt) with
      | some m => (.ok (mkDownloadSuccess message messageId m), [])
      | none =>
          let w := baseDelayMs * 2 ^ (attempt - 1) + jitter attempt
          let (r, ws) := retryLoop message messageId oracle jitter fuel (attempt + 1)
            (some (failMsgOf (oracle attempt)))
          (r, w :: ws)

/-- Embedding of `downloadMessageMedia(message, messageId)`: rejects a
message without media, then runs up to `maxAttempts` download attempts.
`oracle n` is the outcome of the `n`-th `message.downloadMedia()` call and
`jitter n` the `Math.floor(Math.random() * 150)` drawn for it. -/
def downloadMessageMedia (message : WMessage) (messageId : String)
    (oracle : Nat → AttemptResult) (jitter : Nat → Nat) :
    Except String DownloadSuccess × List Nat :=
  if message.hasMedia then
    retryLoop message messageId oracle jitter maxAttempts 1 none
  else
    (.error "Message does not contain media", [])

/-- The widening windows of the targeted chat scan. -/
def scanWindows : List Nat := [120, 300, 600, 1200]

/-- `msgs.find(m => m.id._serialized === messageId)` over the `limit` most
recent messages of a history. -/
def findInTake (limit : Nat) (msgs : List WMessage) (targetId : String) : Option WMessage :=
  (msgs.take limit).find? (fun m => m.idSer = targetId)

/-- Stage 2 of the lookup: derive the chat id as the second
underscore-delimited segment of the message id, fetch that chat, and try
the widening windows in order, stopping at the first window containing the
target. -/
def stage2Find (client : WClient) (messageId : String) : Option WMessage :=
  match (jsSplit "_" messageId)[1]? with
  | none => none
  | some chatId =>
      match client.chatById chatId with
      | none => none
      | some chat => scanWindows.findSome? (fun limit => findInTake limit chat.messages messageId)

/-- Stage 3 of the lookup combined with the download: scan each chat's 50
most recent messages; a found message whose download throws is caught and
the scan continues with the next chat, as in the source. -/
def stage3Download (client : WClient) (messageId : String)
    (download : WMessage → Except String DownloadSuccess) : Option DownloadSuccess :=
  client.allChats.findSome? (fun chat =>
    match findInTake 50 chat.messages messageId with
    | some m =>
        match download m with
        | .ok r => some r
        | .error _ => none
    | none => none)

/-- Embedding of `downloadMedia(accountId, label, messageId)` after the
session handle is resolved.  `download` is `downloadMessageMedia` on the
located message (kept abstract here; a thrown download error inside a
stage is caught there and the lookup falls through to the next stage).
When no stage succeeds, the not-found error is wrapped by the outer
`Failed to download media:` handler, as in the source. -/
def downloadMediaFn (client : WClient) (messageId : String)
    (download : WMessage → Except String DownloadSuccess) : Except String DownloadSuccess :=
  let stage3 : Except String DownloadSuccess :=
    match stage3Download client messageId download with
    | some r => .ok r
    | none => .error ("Failed to download media: Message with ID " ++ messageId
        ++ " not found in recent messages")
  let stage2 : Except String DownloadSuccess :=
    match stage2Find client messageId with
    | some m =>
        match download m with
        | .ok r => .ok r
        | .error _ => stage3
    | none => stage3
  match client.byId messageId with
  | some m =>
      match download m with
      | .ok r => .ok r
      | .error _ => stage2
  | none => stage2

/-! ## Socket fan-out: the `io.on('connection')` handler of the server
entry point -/

/-- What a subscriber can receive on a channel: the full event payload, the
bare message object (`data.message`, used by the `chat_message` channels),
or the `sessions_list` snapshot sent at connection time. -/
inductive SocketPayload where
  | evPayload (e : RegEvent)
  | msgPayload (m : MsgPayload)
  | sessionsList (ss : List SessionInfo)
deriving DecidableEq, Repr

/-- The `(channel, payload)` pairs one connected socket receives for one
registry-level event, in emission order: the scoped copy, the global copy,
and — for `message` — the two `chat_message` copies (suffixed with
`data.message.from`, and unsuffixed) carrying the message object alone. -/
def emissionsFor : RegEvent → List (String × SocketPayload)
  | .qrEv a l q =>
      [("qr:" ++ a ++ ":" ++ l, .evPayload (.qrEv a l q)),
       ("qr", .evPayload (.qrEv a l q))]
  | .statusEv a l st h =>
      [("status:" ++ a ++ ":" ++ l, .evPayload (.statusEv a l st h)),
       ("status", .evPayload (.statusEv a l st h))]
  | .messageEv a l m =>
      [("message:" ++ a ++ ":" ++ l, .evPayload (.messageEv a l m)),
       ("message", .evPayload (.messageEv a l m)),
       ("chat_message:" ++ a ++ ":" ++ l ++ ":" ++ m.msgFrom, .msgPayload m),
       ("chat_message:" ++ a ++ ":" ++ l, .msgPayload m)]
  | .sessionDestroyedEv a l =>
      [("session_destroyed:" ++ a ++ ":" ++ l, .evPayload (.sessionDestroyedEv a l)),
       ("session_destroyed", .evPayload (.sessionDestroyedEv a l))]

/-- One step of a fan-out trace: a socket connects, a registry-level event
fires, or the registry state changes (standing in for the session
operations that mutate it between events). -/
inductive FanStep where
  | connect (sid : Nat)
  | emitEv (e : RegEvent)
  | setRegistry (sm : SMState)

/-- The fan-out state: the current registry, the connected sockets in
connection order, and the append-only log of `(socket, channel, payload)`
deliveries. -/
structure FanState where
  sm : SMState
  connected : List Nat
  inbox : List (Nat × String × SocketPayload)

/-- One fan-out transition.  A connecting socket synchronously receives the
`sessions_list` snapshot of the current registry; an event is delivered to
every connected socket (each connection registered its own listeners on
the shared manager), giving each its `emissionsFor` copies in order. -/
def fanStep (st : FanState) : FanStep → FanState
  | .connect sid =>
      { st with connected := st.connected ++ [sid],
                inbox := st.inbox ++ [(sid, "sessions_list", .sessionsList (getAllSessions st.sm))] }
  | .emitEv e =>
      { st with inbox := st.inbox ++
          (st.connected.map (fun sid => (emissionsFor e).map (fun cp => (sid, cp.1, cp.2)))).flatten }
  | .setRegistry sm => { st with sm }

/-- Run a fan-out trace. -/
def fanRun (st : FanState) (steps : List FanStep) : FanState :=
  steps.foldl fanStep st

/-- The `(channel, payload)` pairs socket `sid` received, in order. -/
def inboxOf (st : FanState) (sid : Nat) : List (String × SocketPayload) :=
  (st.inbox.filter (fun t => t.1 = sid)).map (fun t => t.2)

/-- The event fired by a trace step, if any. -/
def emitOf : FanStep → Option RegEvent
  | .emitEv e => some e
  | _ => none

/-! ## Concrete fixtures used by the witnesses and counterexamples -/

/-- Run a sequence of `initSession` calls, threading the registry state
through successes and failures alike (each triple is the account id, the
label, and the external initialisation outcome of that call). -/
def runInitCalls : SMState → List (String × String × Except String Unit) → SMState
  | s, [] => s
  | s, (a, l, r) :: rest => runInitCalls (initSession s a l r).2 rest

/-- A registry filled to the capacity bound with five registered clients. -/
def smFive : SMState :=
  { clients := (List.range 5).map (fun i =>
      (keyOf ("t" ++ toString i) "main",
       { clientId := "t" ++ toString i ++ "__main", dataPath := "./.wwebjs_auth" })),
    states := (List.range 5).map (fun i => (keyOf ("t" ++ toString i) "main", "ready")),
    qrs := [], selfIds := [], dataPath := "./.wwebjs_auth",
    fsDirs := (List.range 5).map (fun i => "session-t" ++ toString i ++ "__main") }

/-- A registry with one active session `t1::l1` and two persisted session
directories, the second of which is not active. -/
def smRestoreTwo : SMState :=
  { clients := [(keyOf "t1" "l1", { clientId := "t1__l1", dataPath := "./.wwebjs_auth" })],
    states := [(keyOf "t1" "l1", "ready")], qrs := [], selfIds := [],
    dataPath := "./.wwebjs_auth", fsDirs := ["session-t1__l1", "session-t2__l2"] }

/-- A registry with two persisted session directories and no active
session, used to show that one entry's restore failure does not prevent
the other entry from being attempted. -/
def smRestoreFailing : SMState :=
  { clients := [], states := [], qrs := [], selfIds := [],
    dataPath := "./.wwebjs_auth", fsDirs := ["session-a__x", "session-b__y"] }

/-- Restore oracle failing the `a::x` session's initialisation only. -/
def failAOracle : String → String → Except String Unit := fun a _ =>
  if a = "a" then .error "boom" else .ok ()

/-- A concrete media cache entry. -/
def entryPng : MediaEntry :=
  { buffer := [137, 80, 78, 71], mimetype := "image/png", filename := "pic.png" }

/-- A concrete disk sidecar pair. -/
def diskPng : DiskEntry :=
  { buffer := [137, 80, 78, 71], mimetype := "image/png", filename := "pic.png" }

/-- A concrete media message: the target of the downloader fixtures. -/
def msgTarget : WMessage :=
  { idSer := "false_123@c.us_AAA", hasMedia := true, body := "pic.jpg" }

/-- A filler message for the downloader fixtures. -/
def fillerMsg (i : Nat) : WMessage :=
  { idSer := "false_123@c.us_M" ++ toString i, hasMedia := false, body := "" }

/-- A chat whose 121st-most-recent message is the target: the target is
absent from the 120 most recent messages but present within the 300 (hence
1200) most recent. -/
def chatDeep : WChat :=
  { messages := (List.range 120).map fillerMsg ++ [msgTarget] }

/-- A client that cannot resolve the target by direct id lookup and owns
only `chatDeep` under the chat id `123@c.us`. -/
def clientDeep : WClient :=
  { byId := fun _ => none,
    chatById := fun c => if c = "123@c.us" then some chatDeep else none,
    allChats := [chatDeep] }

/-- A download outcome succeeding on every message, carrying its body as
filename. -/
def dlAlwaysOk : WMessage → Except String DownloadSuccess := fun m =>
  .ok { success := true, data := "QUJD", mimetype := "image/jpeg",
        filename := m.body, messageId := m.idSer }

/-- Attempt oracle: the first attempt throws, the second resolves empty,
the third resolves with data — exercising both retry triggers. -/
def attemptsThirdOk : Nat → AttemptResult := fun n =>
  if n = 1 then .threw "transport error"
  else if n = 2 then .returned none
  else .returned (some { data := "QUJD", mimetype := "image/png" })

/-- A concrete inbound message payload whose chat (`from`) is
`123@c.us`. -/
def msgPayload0 : MsgPayload :=
  { idSer := "false_123@c.us_AAA", msgFrom := "123@c.us", msgTo := "me@c.us",
    body := "hi", msgType := "chat", fromMe := false, timestamp := 1700000000,
    hasMedia := false }

/-! ## Theorems -/

theorem length_setA_le {α : Type} (m : List (String × α)) (k : String) (v : α) :
    (setA m k v).length ≤ m.length + 1 := by
  induction m with
  | nil => simp [setA]
  | cons hd tl ih =>
    obtain ⟨k', v'⟩ := hd
    by_cases h : k' = k <;> simp [setA, h] <;> omega

theorem length_delA_le {α : Type} (m : List (String × α)) (k : String) :
    (delA m k).length ≤ m.length := by
  induction m with
  | nil => simp [delA]
  | cons hd tl ih =>
    obtain ⟨k', v'⟩ := hd
    by_cases h : k' = k <;> simp [delA, h] <;> omega

theorem getA_setA_self {α : Type} (m : List (String × α)) (k : String) (v : α) :
    getA (setA m k v) k = some v := by
  induction m with
  | nil => simp [setA, getA]
  | cons hd tl ih =>
    obtain ⟨k', v'⟩ := hd
    by_cases h : k' = k <;> simp [setA, getA, h, ih]

theorem delA_setA_of_absent {α : Type} (m : List (String × α)) (k : String) (v : α)
    (h : getA m k = none) : delA (setA m k v) k = m := by
  induction m with
  | nil => simp [setA, delA]
  | cons hd tl ih =>
    obtain ⟨k', v'⟩ := hd
    by_cases hk : k' = k
    · simp [getA, hk] at h
    · simp [getA, hk] at h
      simp [setA, delA, hk, ih h]

/-- C5: for a buffer of length `L`, a MIME type, a filename and an optional
`Range` header: a header not matching `bytes=<start>-<end>` (either bound
optional) yields 416, as does a parsed range with `start > end` or
`start ≥ L` (with `end` clamped to `L - 1` when omitted or beyond bounds);
a valid range yields a 206 result carrying exactly the bytes from `start`
to `end` inclusive, a `Content-Range` of `bytes start-end/L`, and a
`Content-Length` equal to the slice length; an absent header yields the
full buffer with `Content-Length` `L` and the same content-type and
disposition metadata.  Concretely, `bytes=10-14` against a 15-byte buffer
returns partial content `10-14/15` with exactly 5 bytes, and `bytes=20-30`
against the same buffer is not satisfiable. -/
theorem sendBufferWithRange_spec :
    (∀ (buffer : List Nat) (mimetype filename hdr : String), hdr ≠ "" →
      parseRangeGroups hdr = none →
      (sendBufferWithRange buffer mimetype filename (some hdr)).status = 416) ∧
    (∀ (buffer : List Nat) (mimetype filename hdr : String) (g1 g2 : List Char),
      hdr ≠ "" → parseRangeGroups hdr = some (g1, g2) →
      (let size : Int := buffer.length
       let start : Int := if g1 = [] then 0 else (decDigits g1 : Int)
       let endB : Int := if g2 = [] then size - 1 else min (decDigits g2 : Int) (size - 1)
       (start > endB ∨ start ≥ size →
         (sendBufferWithRange buffer mimetype filename (some hdr)).status = 416) ∧
       (start ≤ endB → start < size →
         sendBufferWithRange buffer mimetype filename (some hdr) =
           { status := 206, contentType := mimetype, acceptRanges := "bytes",
             contentRange := some ("bytes " ++ toString start ++ "-" ++ toString endB
               ++ "/" ++ toString buffer.length),
             contentLength := some (toString ((buffer.drop start.toNat).take
               (endB.toNat + 1 - start.toNat)).length),
             contentDisposition := some ("inline; filename=\"" ++ filename ++ "\""),
             body := (buffer.drop start.toNat).take (endB.toNat + 1 - start.toNat) }))) ∧
    (∀ (buffer : List Nat) (mimetype filename : String),
      sendBufferWithRange buffer mimetype filename none =
        { status := 200, contentType := mimetype, acceptRanges := "bytes",
          contentRange := none, contentLength := some (toString buffer.length),
          contentDisposition := some ("inline; filename=\"" ++ filename ++ "\""),
          body := buffer }) ∧
    (sendBufferWithRange (List.range 15) "application/pdf" "f.bin" (some "bytes=10-14") =
      { status := 206, contentType := "application/pdf", acceptRanges := "bytes",
        contentRange := some "bytes 10-14/15", contentLength := some "5",
        contentDisposition := some "inline; filename=\"f.bin\"",
        body := [10, 11, 12, 13, 14] }) ∧
    ((sendBufferWithRange (List.range 15) "application/pdf" "f.bin" (some "bytes=20-30")).status = 416) ∧
    ((sendBufferWithRange (List.range 15) "application/pdf" "f.bin" (some "bytes=10-")).contentRange =
      some "bytes 10-14/15") ∧
    ((sendBufferWithRange (List.range 15) "application/pdf" "f.bin" (some "bytes=0-999")).contentRange =
      some "bytes 0-14/15") := by
  refine ⟨?_, ?_, ?_, by decide, by decide, by decide, by decide⟩
  · intro buffer mimetype filename hdr hne hparse
    simp only [sendBufferWithRange]
    rw [dif_pos ⟨by simp, by simpa using hne⟩]
    simp [hparse]
  · intro buffer mimetype filename hdr g1 g2 hne hparse
    simp only [sendBufferWithRange]
    rw [dif_pos ⟨by simp, by simpa using hne⟩]
    simp only [Option.getD_some, hparse]
    constructor
    · intro hbad
      rw [if_pos hbad]
    · intro hle hlt
      rw [if_neg (by omega)]
  · intro buffer mimetype filename
    simp [sendBufferWithRange]

theorem getA_eq_none_of_not_mem {α : Type} (m : List (String × α)) (k : String)
    (h : k ∉ m.map Prod.fst) : getA m k = none := by
  induction m with
  | nil => rfl
  | cons hd tl ih =>
    obtain ⟨k', v'⟩ := hd
    simp only [List.map_cons, List.mem_cons] at h
    push_neg at h
    simp only [getA]
    rw [if_neg (fun he => h.1 he.symm)]
    exact ih h.2

theorem getA_delA_self {α : Type} (m : List (String × α)) (k : String)
    (h : (m.map Prod.fst).Nodup) : getA (delA m k) k = none := by
  induction m with
  | nil => rfl
  | cons hd tl ih =>
    obtain ⟨k', v'⟩ := hd
    simp only [List.map_cons, List.nodup_cons] at h
    by_cases hk : k' = k
    · simp only [delA, if_pos hk]
      exact getA_eq_none_of_not_mem tl k (hk ▸ h.1)
    · simp only [delA, if_neg hk]
      simp only [getA, if_neg hk]
      exact ih h.2

/-- Keys-are-unique well-formedness of one of the registry's maps; JS `Map`s
have unique keys, and every map the embedded operations build from an empty
map satisfies this. -/
abbrev NodupKeys {α : Type} (m : List (String × α)) : Prop :=
  (m.map Prod.fst).Nodup

/-- Per-call registry growth bound: one `initSession` call keeps the client
map within the bound of five. -/
theorem initSession_clients_le (s : SMState) (a l : String) (r : Except String Unit)
    (h : s.clients.length ≤ 5) : (initSession s a l r).2.clients.length ≤ 5 := by
  unfold initSession
  by_cases hc : hasA s.clients (keyOf a l)
  · simp [hc, h]
  · by_cases hlen : 5 ≤ s.clients.length
    · simp [hc, hlen, h]
    · have hset := length_setA_le s.clients (keyOf a l)
        { clientId := a ++ "__" ++ l, dataPath := s.dataPath }
      have hdel := length_delA_le (setA s.clients (keyOf a l)
        { clientId := a ++ "__" ++ l, dataPath := s.dataPath }) (keyOf a l)
      cases r with
      | ok u =>
        simp [hc, hlen]
        omega
      | error e =>
        simp [hc, hlen]
        omega

/-- C1: over every sequence of `initSession` calls starting within the
bound, the registry never holds more than five entries; and an
`initSession` call for an unregistered key made while the registry holds
five or more entries throws `Maximum session limit (5) reached` and leaves
the whole state unchanged (no client registered, no status recorded). -/
theorem initSession_capacity_spec :
    (∀ (calls : List (String × String × Except String Unit)) (s0 : SMState),
      s0.clients.length ≤ 5 → (runInitCalls s0 calls).clients.length ≤ 5) ∧
    (∀ (s : SMState) (a l : String) (r : Except String Unit),
      getA s.clients (keyOf a l) = none → 5 ≤ s.clients.length →
      initSession s a l r = (.error "Maximum session limit (5) reached", s)) := by
  constructor
  · intro calls
    induction calls with
    | nil => intro s0 h; simpa [runInitCalls] using h
    | cons c rest ih =>
      intro s0 h
      obtain ⟨a, l, r⟩ := c
      exact ih _ (initSession_clients_le s0 a l r h)
  · intro s a l r hab hlen
    unfold initSession
    have hc : hasA s.clients (keyOf a l) = false := by simp [hasA, hab]
    simp [hc, hlen]

/-- Witness for `initSession_capacity_spec`: five calls from the empty
registry stay within the bound, and a sixth key on the full registry
`smFive` is rejected with the state untouched. -/
theorem initSession_capacity_spec_witness :
    (runInitCalls smEmpty [("t0", "main", .ok ()), ("t1", "main", .ok ()),
      ("t2", "main", .ok ()), ("t3", "main", .ok ()),
      ("t4", "main", .ok ()), ("t5", "main", .ok ())]).clients.length ≤ 5 ∧
    initSession smFive "t9" "l9" (.ok ()) =
      (.error "Maximum session limit (5) reached", smFive) :=
  ⟨initSession_capacity_spec.1 _ smEmpty (by decide),
   initSession_capacity_spec.2 smFive "t9" "l9" (.ok ()) (by decide) (by decide)⟩

/-- C7: `initSession` on an already-registered key is idempotent — it
returns the current snapshot (stored status and `hasQr`) as a success,
flagged `exists: true`, and leaves the entire state (in particular the
registered client) unchanged, so no second underlying client is created. -/
theorem initSession_idempotent_spec :
    ∀ (s : SMState) (a l : String) (r : Except String Unit) (c : WClientHandle),
      getA s.clients (keyOf a l) = some c →
      initSession s a l r =
        (.ok { accountId := a, label := l, status := getA s.states (keyOf a l),
               already := true, hasQr := some (hasA s.qrs (keyOf a l)) }, s) := by
  intro s a l r c hc
  unfold initSession
  have h : hasA s.clients (keyOf a l) = true := by simp [hasA, hc]
  simp [h]

/-- Witness for `initSession_idempotent_spec` on the populated registry
`smFive`. -/
theorem initSession_idempotent_spec_witness :
    initSession smFive "t0" "main" (.error "would not even be consulted") =
      (.ok { accountId := "t0", label := "main", status := some "ready",
             already := true, hasQr := some false }, smFive) := by
  have h := initSession_idempotent_spec smFive "t0" "main"
    (.error "would not even be consulted")
    { clientId := "t0__main", dataPath := "./.wwebjs_auth" } (by decide)
  simpa using h

/-- Counterexample to C8 as stated: when the external `initialize()` call
fails, the failure is observed via the `initSession` call itself — the
call throws the error and the registration is rolled back — not via
subsequently emitted events with the snapshot returned. -/
theorem initSession_async_failure_counterexample :
    (initSession smEmpty "t1" "l1" (.error "boom")).1 = .error "boom" ∧
    getA (initSession smEmpty "t1" "l1" (.error "boom")).2.clients (keyOf "t1" "l1") = none ∧
    getA (initSession smEmpty "t1" "l1" (.error "boom")).2.states (keyOf "t1" "l1") = none := by
  decide

/-- C8 (amended): for an unregistered key under the capacity bound,
`initSession` allocates a client handle bound to the key's credential
identity (`accountId__label` under the credential root), registers it,
records status `initializing`, starts the external initialisation, and —
when that call succeeds — returns the `initializing` snapshot (so later
completion such as `ready` is observed via events, not via the return
value); when the external initialisation fails, the error propagates to
the caller and the registration is rolled back. -/
theorem initSession_fresh_spec :
    ∀ (s : SMState) (a l : String) (r : Except String Unit),
      getA s.clients (keyOf a l) = none →
      getA s.states (keyOf a l) = none →
      s.clients.length < 5 →
      ((r = .ok () →
        initSession s a l r =
          (.ok { accountId := a, label := l, status := some "initializing",
                 already := false, hasQr := none },
           { s with
              clients := setA s.clients (keyOf a l)
                { clientId := a ++ "__" ++ l, dataPath := s.dataPath },
              states := setA s.states (keyOf a l) "initializing" })) ∧
       (getA (setA s.clients (keyOf a l)
          { clientId := a ++ "__" ++ l, dataPath := s.dataPath }) (keyOf a l) =
          some { clientId := a ++ "__" ++ l, dataPath := s.dataPath }) ∧
       (getA (setA s.states (keyOf a l) "initializing") (keyOf a l) =
          some "initializing") ∧
       (∀ e, r = .error e →
        (initSession s a l r).1 = .error e ∧
        getA (initSession s a l r).2.clients (keyOf a l) = none ∧
        getA (initSession s a l r).2.states (keyOf a l) = none)) := by
  intro s a l r hca hsa hlen
  have hc : hasA s.clients (keyOf a l) = false := by simp [hasA, hca]
  have hl : ¬ 5 ≤ s.clients.length := by omega
  refine ⟨?_, getA_setA_self _ _ _, getA_setA_self _ _ _, ?_⟩
  · rintro rfl
    unfold initSession
    simp [hc, hl]
  · rintro e rfl
    unfold initSession
    simp only [hc, Bool.false_eq_true, if_false, hl]
    rw [delA_setA_of_absent _ _ _ hca, delA_setA_of_absent _ _ _ hsa]
    simp [hca, hsa]

/-- Witness for `initSession_fresh_spec`: a fresh key on the empty registry
is registered under `t1__l1` with status `initializing`, and a failing
initialisation is rolled back. -/
theorem initSession_fresh_spec_witness :
    initSession smEmpty "t1" "l1" (.ok ()) =
      (.ok { accountId := "t1", label := "l1", status := some "initializing",
             already := false, hasQr := none },
       { smEmpty with
          clients := [(keyOf "t1" "l1", { clientId := "t1__l1", dataPath := "./.wwebjs_auth" })],
          states := [(keyOf "t1" "l1", "initializing")] }) ∧
    (initSession smEmpty "t1" "l1" (.error "boom")).1 = .error "boom" := by
  have h := initSession_fresh_spec smEmpty "t1" "l1" (.ok ()) (by decide) (by decide) (by decide)
  have h2 := initSession_fresh_spec smEmpty "t1" "l1" (.error "boom") (by decide) (by decide) (by decide)
  exact ⟨by simpa using h.1 rfl, (h2.2.2.2 "boom" rfl).1⟩

/-- C9: `destroySession` always resolves with `destroyed: true` and always
emits exactly one `session_destroyed` event, whether or not a live handle
existed and whatever the outcomes of the external teardown and of the
directory removal (both are swallowed); afterwards no bookkeeping for the
key remains, `getSessionStatus` reports `not_found` with no QR, and on a
successful removal the credential directory is gone.  The hypotheses are
the registry's representation invariants: unique map keys, and auxiliary
maps populated only for registered clients. -/
theorem destroySession_spec :
    ∀ (s : SMState) (a l : String) (dRes rmRes : Except String Unit),
      NodupKeys s.clients → NodupKeys s.states → NodupKeys s.qrs → NodupKeys s.selfIds →
      (getA s.clients (keyOf a l) = none →
        getA s.states (keyOf a l) = none ∧ getA s.qrs (keyOf a l) = none ∧
        getA s.selfIds (keyOf a l) = none) →
      (destroySession s a l dRes rmRes).1 = { accountId := a, label := l, destroyed := true } ∧
      (destroySession s a l dRes rmRes).2.2 = [.sessionDestroyedEv a l] ∧
      getA (destroySession s a l dRes rmRes).2.1.clients (keyOf a l) = none ∧
      getA (destroySession s a l dRes rmRes).2.1.states (keyOf a l) = none ∧
      getA (destroySession s a l dRes rmRes).2.1.qrs (keyOf a l) = none ∧
      getA (destroySession s a l dRes rmRes).2.1.selfIds (keyOf a l) = none ∧
      (getSessionStatus (destroySession s a l dRes rmRes).2.1 a l).status = "not_found" ∧
      (getSessionStatus (destroySession s a l dRes rmRes).2.1 a l).hasQr = false ∧
      (rmRes = .ok () →
        ("session-" ++ a ++ "__" ++ l) ∉ (destroySession s a l dRes rmRes).2.1.fsDirs) := by
  intro s a l dRes rmRes hnc hns hnq hni horphan
  set key := keyOf a l with hkey
  have hmaps : getA (destroySession s a l dRes rmRes).2.1.clients key = none ∧
      getA (destroySession s a l dRes rmRes).2.1.states key = none ∧
      getA (destroySession s a l dRes rmRes).2.1.qrs key = none ∧
      getA (destroySession s a l dRes rmRes).2.1.selfIds key = none := by
    unfold destroySession
    by_cases hc : hasA s.clients key
    · simp only [hkey, hc, if_true]
      have g1 := getA_delA_self s.clients key hnc
      have g2 := getA_delA_self s.states key hns
      have g3 := getA_delA_self s.qrs key hnq
      have g4 := getA_delA_self s.selfIds key hni
      by_cases hd : ("session-" ++ a ++ "__" ++ l) ∈ s.fsDirs <;>
        cases rmRes <;> simp_all
    · have habs : getA s.clients key = none := by
        cases hv : getA s.clients key with
        | none => rfl
        | some c => simp [hasA, hv] at hc
      obtain ⟨o1, o2, o3⟩ := horphan habs
      simp only [hkey, hc, Bool.false_eq_true, if_false]
      by_cases hd : ("session-" ++ a ++ "__" ++ l) ∈ s.fsDirs <;>
        cases rmRes <;> simp_all
  obtain ⟨g1, g2, g3, g4⟩ := hmaps
  refine ⟨?_, ?_, g1, g2, g3, g4, ?_, ?_, ?_⟩
  · unfold destroySession; rfl
  · unfold destroySession; rfl
  · simp [getSessionStatus, g2]
  · simp [getSessionStatus, hasA, g3]
  · rintro rfl
    unfold destroySession
    by_cases hc : hasA s.clients key <;>
      by_cases hd : s.fsDirs.contains ("session-" ++ a ++ "__" ++ l) <;>
      simp_all [List.mem_filter]

/-- Witness for `destroySession_spec`: destroying the registered session
`t0::main` of `smFive` with a failing external teardown still succeeds,
emits the event, and afterwards reports `not_found`. -/
theorem destroySession_spec_witness :
    (destroySession smFive "t0" "main" (.error "teardown failed") (.ok ())).1 =
      { accountId := "t0", label := "main", destroyed := true } ∧
    (getSessionStatus (destroySession smFive "t0" "main" (.error "teardown failed") (.ok ())).2.1
      "t0" "main").status = "not_found" := by
  have h := destroySession_spec smFive "t0" "main" (.error "teardown failed") (.ok ())
    (by decide) (by decide) (by decide) (by decide) (by decide)
  exact ⟨h.1, h.2.2.2.2.2.2.1⟩

/-- Shape of the restore loop's output: one result per detected entry, in
order; `already_active` exactly for the entries detected as active;
otherwise `restored` or an `error` record with the thrown message; and the
restored count is the number of `restored` entries. -/
theorem autoRestoreLoop_shape (oracle : String → String → Except String Unit) :
    ∀ (ds : List DetectedSession) (s : SMState),
      ((autoRestoreLoop oracle s ds).2.1.map fun e => (e.accountId, e.label)) =
        (ds.map fun d => (d.accountId, d.label)) ∧
      (autoRestoreLoop oracle s ds).1 =
        ((autoRestoreLoop oracle s ds).2.1.filter fun e => e.status = "restored").length ∧
      (∀ p ∈ (autoRestoreLoop oracle s ds).2.1.zip ds,
        (p.1.status = "already_active" ↔ p.2.active = true) ∧
        (p.1.status = "already_active" ∨ p.1.status = "restored" ∨
          (p.1.status = "error" ∧ p.1.error.isSome = true))) := by
  intro ds
  induction ds with
  | nil => intro s; simp [autoRestoreLoop]
  | cons d rest ih =>
    intro s
    by_cases ha : d.active
    · have := ih s
      simp only [autoRestoreLoop, ha, if_true]
      obtain ⟨i1, i2, i3⟩ := ih s
      refine ⟨by simp [i1], by simp [i2], ?_⟩
      intro p hp
      simp only [List.zip_cons_cons, List.mem_cons] at hp
      rcases hp with rfl | hp
      · simp [ha]
      · exact i3 p hp
    · rcases hres : initSession s d.accountId d.label (oracle d.accountId d.label) with ⟨res, s1⟩
      obtain ⟨i1, i2, i3⟩ := ih s1
      cases res with
      | ok v =>
        simp only [autoRestoreLoop, ha, if_false, hres, Bool.false_eq_true]
        refine ⟨by simp [i1], by simp [i2], ?_⟩
        intro p hp
        simp only [List.zip_cons_cons, List.mem_cons] at hp
        rcases hp with rfl | hp
        · simp [ha]
        · exact i3 p hp
      | error e =>
        simp only [autoRestoreLoop, ha, if_false, hres, Bool.false_eq_true]
        refine ⟨by simp [i1], by simp [i2], ?_⟩
        intro p hp
        simp only [List.zip_cons_cons, List.mem_cons] at hp
        rcases hp with rfl | hp
        · simp [ha]
        · exact i3 p hp

/-- C10: `autoRestoreAllSessions` detects the persisted sessions and then
attempts every detected entry: it reports one per-entry outcome per
detected entry, in order (so no single failure aborts the remaining
entries), each outcome being `already_active` (exactly for the entries
already active), `restored`, or an `error` record carrying the thrown
message; `total` is the number of detected entries and `restored` counts
the `restored` outcomes.  Concretely, over two detected sessions with one
already active it returns `total = 2`, `restored = 1` with per-entry
statuses `already_active` and `restored`; and when the first of two
detected entries fails to restore, the second is still attempted and
restored. -/
theorem autoRestoreAllSessions_spec :
    (∀ (s : SMState) (oracle : String → String → Except String Unit),
      (autoRestoreAllSessions s oracle).1.total = (detectSessions s).length ∧
      (autoRestoreAllSessions s oracle).1.results.length = (autoRestoreAllSessions s oracle).1.total ∧
      ((autoRestoreAllSessions s oracle).1.results.map fun e => (e.accountId, e.label)) =
        ((detectSessions s).map fun d => (d.accountId, d.label)) ∧
      (autoRestoreAllSessions s oracle).1.restored =
        ((autoRestoreAllSessions s oracle).1.results.filter fun e => e.status = "restored").length ∧
      (∀ p ∈ (autoRestoreAllSessions s oracle).1.results.zip (detectSessions s),
        (p.1.status = "already_active" ↔ p.2.active = true) ∧
        (p.1.status = "already_active" ∨ p.1.status = "restored" ∨
          (p.1.status = "error" ∧ p.1.error.isSome = true)))) ∧
    ((autoRestoreAllSessions smRestoreTwo (fun _ _ => .ok ())).1.total = 2 ∧
     (autoRestoreAllSessions smRestoreTwo (fun _ _ => .ok ())).1.restored = 1 ∧
     ((autoRestoreAllSessions smRestoreTwo (fun _ _ => .ok ())).1.results.map
        fun e => e.status) = ["already_active", "restored"]) ∧
    (((autoRestoreAllSessions smRestoreFailing failAOracle).1.results.map
        fun e => e.status) = ["error", "restored"] ∧
     (autoRestoreAllSessions smRestoreFailing failAOracle).1.results.map
        (fun e => e.error) = [some "boom", none] ∧
     (autoRestoreAllSessions smRestoreFailing failAOracle).1.restored = 1) := by
  refine ⟨?_, by decide, by decide⟩
  intro s oracle
  obtain ⟨h1, h2, h3⟩ := autoRestoreLoop_shape oracle (detectSessions s) s
  by_cases hlen : (detectSessions s).length = 0
  · rw [List.length_eq_zero] at hlen
    simp [autoRestoreAllSessions, hlen, autoRestoreLoop]
  · have hmap : ((autoRestoreAllSessions s oracle).1.results.map
        fun e => (e.accountId, e.label)) = ((detectSessions s).map fun d => (d.accountId, d.label)) := by
      simp only [autoRestoreAllSessions, hlen, if_false]
      exact h1
    refine ⟨?_, ?_, hmap, ?_, ?_⟩
    · simp [autoRestoreAllSessions, hlen]
    · have := congrArg List.length hmap
      simp only [List.length_map] at this
      simp only [autoRestoreAllSessions, hlen, if_false] at this ⊢
      simpa using this
    · simp only [autoRestoreAllSessions, hlen, if_false]
      exact h2
    · simp only [autoRestoreAllSessions, hlen, if_false]
      exact h3

/-- Witness for `autoRestoreAllSessions_spec`: its general part applied to
the concrete two-session registry, with the per-entry property read off at
the first entry of the zip. -/
theorem autoRestoreAllSessions_spec_witness :
    ((autoRestoreAllSessions smRestoreTwo (fun _ _ => .ok ())).1.results.map
        fun e => (e.accountId, e.label)) =
      ((detectSessions smRestoreTwo).map fun d => (d.accountId, d.label)) ∧
    (({ accountId := "t1", label := "l1", status := "already_active", error := none } :
        RestoreEntry).status = "already_active" ↔
      ({ directory := "session-t1__l1", accountId := "t1", label := "l1", active := true } :
        DetectedSession).active = true) := by
  refine ⟨(autoRestoreAllSessions_spec.1 smRestoreTwo (fun _ _ => .ok ())).2.2.1, ?_⟩
  exact ((autoRestoreAllSessions_spec.1 smRestoreTwo (fun _ _ => .ok ())).2.2.2.2
    ({ accountId := "t1", label := "l1", status := "already_active", error := none },
     { directory := "session-t1__l1", accountId := "t1", label := "l1", active := true })
    (by decide)).1

/-- Counterexample to C2 as stated: the volatile tier hits entries whose
age equals the TTL exactly (`memGet` misses only when `now - ts > TTL_MS`),
so a hit is not restricted to entries strictly younger than the TTL.  Here
an entry aged exactly `TTL_MS` is served from memory without consulting
the disk or the downloader, where the claim (disk empty, origin failing)
would require a 410 outcome. -/
theorem mediaRoute_ttl_counterexample :
    mediaRoute [("mid1", (entryPng, 0))] none none TTL_MS "mid1" (.error "origin down") none =
      { result := .served (sendBufferWithRange entryPng.buffer entryPng.mimetype
          entryPng.filename none),
        mem := [("mid1", (entryPng, 0))], diskWrite := none, downloaderCalled := false } ∧
    ¬ (TTL_MS - 0 < TTL_MS) := by
  decide

/-- C2 (amended): a media byte request looks up, in order, (1) the
volatile cache — a hit exactly when the entry is present and its age is at
most the 10-minute TTL (an entry strictly older than the TTL is deleted
and misses); (2) the disk store, whose hit is promoted into the volatile
cache; (3) the origin fetch, whose success is written through to both
tiers; if the origin fetch fails, a disk entry found by the fallback
re-read is served; and if that re-read also misses, the request fails with
the 410 `Gone` outcome (not an internal server error). -/
theorem mediaRoute_spec :
    (∀ (mem : MemCache) (d1 d2 : Option DiskEntry) (now ts : Nat) (id : String)
       (fetch : Except String FetchedMedia) (range : Option String) (entry : MediaEntry),
      getA mem id = some (entry, ts) → now - ts ≤ TTL_MS →
      mediaRoute mem d1 d2 now id fetch range =
        { result := .served (sendBufferWithRange entry.buffer entry.mimetype entry.filename range),
          mem := mem, diskWrite := none, downloaderCalled := false }) ∧
    (∀ mem d1 d2 now id fetch range entry,
      (memGet mem id now).1 = none → diskLoad d1 id = some entry →
      mediaRoute mem d1 d2 now id fetch range =
        { result := .served (sendBufferWithRange entry.buffer entry.mimetype entry.filename range),
          mem := memSet (memGet mem id now).2 id entry now,
          diskWrite := none, downloaderCalled := false }) ∧
    (∀ mem d1 d2 now id range media,
      (memGet mem id now).1 = none → diskLoad d1 id = none →
      (let entry : MediaEntry :=
        { buffer := media.data, mimetype := media.mimetype,
          filename := if media.filename = "" then "media_" ++ id else media.filename }
       mediaRoute mem d1 d2 now id (.ok media) range =
        { result := .served (sendBufferWithRange entry.buffer entry.mimetype entry.filename range),
          mem := memSet (memGet mem id now).2 id entry now,
          diskWrite := some (id, ⟨entry.buffer, entry.mimetype, entry.filename⟩),
          downloaderCalled := true })) ∧
    (∀ mem d1 d2 now id range e entry,
      (memGet mem id now).1 = none → diskLoad d1 id = none → diskLoad d2 id = some entry →
      mediaRoute mem d1 d2 now id (.error e) range =
        { result := .served (sendBufferWithRange entry.buffer entry.mimetype entry.filename range),
          mem := memSet (memGet mem id now).2 id entry now,
          diskWrite := none, downloaderCalled := true }) ∧
    (∀ mem d1 d2 now id range e,
      (memGet mem id now).1 = none → diskLoad d1 id = none → diskLoad d2 id = none →
      mediaRoute mem d1 d2 now id (.error e) range =
        { result := .errorReply 410
            "Media not available from WhatsApp (expired or not in recent history).",
          mem := (memGet mem id now).2, diskWrite := none, downloaderCalled := true }) := by
  refine ⟨?_, ?_, ?_, ?_, ?_⟩
  · intro mem d1 d2 now ts id fetch range entry hget hage
    have hmem : memGet mem id now = (some entry, mem) := by
      simp [memGet, hget]
      omega
    simp [mediaRoute, hmem]
  · intro mem d1 d2 now id fetch range entry hmiss hdisk
    rcases hm : memGet mem id now with ⟨c0, mem0⟩
    rw [hm] at hmiss
    simp only at hmiss
    subst hmiss
    simp [mediaRoute, hm, hdisk]
  · intro mem d1 d2 now id range media hmiss hdisk
    rcases hm : memGet mem id now with ⟨c0, mem0⟩
    rw [hm] at hmiss
    simp only at hmiss
    subst hmiss
    simp [mediaRoute, hm, hdisk]
  · intro mem d1 d2 now id range e entry hmiss hdisk1 hdisk2
    rcases hm : memGet mem id now with ⟨c0, mem0⟩
    rw [hm] at hmiss
    simp only at hmiss
    subst hmiss
    simp [mediaRoute, hm, hdisk1, hdisk2]
  · intro mem d1 d2 now id range e hmiss hdisk1 hdisk2
    rcases hm : memGet mem id now with ⟨c0, mem0⟩
    rw [hm] at hmiss
    simp only at hmiss
    subst hmiss
    simp [mediaRoute, hm, hdisk1, hdisk2]

/-- Witness for `mediaRoute_spec`, exercising every tier at concrete
inputs: a fresh volatile hit, a disk hit with promotion, a successful
origin fetch with write-through, the disk fallback after a failed fetch,
and the 410 outcome when nothing is available. -/
theorem mediaRoute_spec_witness :
    mediaRoute [("mid1", (entryPng, 100))] none none 200 "mid1" (.error "down") none =
      { result := .served (sendBufferWithRange entryPng.buffer entryPng.mimetype
          entryPng.filename none),
        mem := [("mid1", (entryPng, 100))], diskWrite := none, downloaderCalled := false } ∧
    mediaRoute [] (some diskPng) none 50 "mid1" (.error "down") none =
      { result := .served (sendBufferWithRange entryPng.buffer entryPng.mimetype
          entryPng.filename none),
        mem := [("mid1", (entryPng, 50))], diskWrite := none, downloaderCalled := false } ∧
    mediaRoute [] none none 50 "mid1"
        (.ok { data := [1, 2, 3], mimetype := "image/gif", filename := "" }) none =
      { result := .served (sendBufferWithRange [1, 2, 3] "image/gif" "media_mid1" none),
        mem := [("mid1", (⟨[1, 2, 3], "image/gif", "media_mid1"⟩, 50))],
        diskWrite := some ("mid1", ⟨[1, 2, 3], "image/gif", "media_mid1"⟩),
        downloaderCalled := true } ∧
    mediaRoute [] none (some diskPng) 50 "mid1" (.error "down") none =
      { result := .served (sendBufferWithRange entryPng.buffer entryPng.mimetype
          entryPng.filename none),
        mem := [("mid1", (entryPng, 50))], diskWrite := none, downloaderCalled := true } ∧
    mediaRoute [] none none 50 "mid1" (.error "down") none =
      { result := .errorReply 410
          "Media not available from WhatsApp (expired or not in recent history).",
        mem := [], diskWrite := none, downloaderCalled := true } := by
  refine ⟨?_, ?_, ?_, ?_, ?_⟩
  · exact mediaRoute_spec.1 [("mid1", (entryPng, 100))] none none 200 100 "mid1"
      (.error "down") none entryPng (by decide) (by decide)
  · have h := mediaRoute_spec.2.1 [] (some diskPng) none 50 "mid1" (.error "down") none
      entryPng (by decide) (by decide)
    simpa using h
  · have h := mediaRoute_spec.2.2.1 [] none none 50 "mid1" none
      { data := [1, 2, 3], mimetype := "image/gif", filename := "" } (by decide) (by decide)
    simpa using h
  · have h := mediaRoute_spec.2.2.2.1 [] none (some diskPng) 50 "mid1" none "down"
      entryPng (by decide) (by decide) (by decide)
    simpa using h
  · have h := mediaRoute_spec.2.2.2.2 [] none none 50 "mid1" none "down"
      (by decide) (by decide) (by decide)
    simpa using h

/-- Closed form of the retry loop when every remaining attempt fails: the
recorded last failure of the final attempt is thrown, and one backoff wait
`baseDelayMs * 2 ^ (attempt - 1) + jitter attempt` is taken per failed
attempt. -/
theorem retryLoop_all_fail (message : WMessage) (id : String)
    (oracle : Nat → AttemptResult) (jitter : Nat → Nat) :
    ∀ (fuel attempt : Nat) (le : Option String),
      1 ≤ attempt →
      (∀ i, attempt ≤ i → i < attempt + fuel → successOf (oracle i) = none) →
      retryLoop message id oracle jitter fuel attempt le =
        (.error ((if fuel = 0 then le else some (failMsgOf (oracle (attempt + fuel - 1)))).getD
            "Failed to download media"),
         (List.range fuel).map fun j => baseDelayMs * 2 ^ (attempt + j - 1) + jitter (attempt + j)) := by
  intro fuel
  induction fuel with
  | zero => intro attempt le _ _; simp [retryLoop]
  | succ n ih =>
    intro attempt le hatt h
    have h0 : successOf (oracle attempt) = none := h attempt le_rfl (by omega)
    have hrec := ih (attempt + 1) (some (failMsgOf (oracle attempt))) (by omega)
      (fun i hi1 hi2 => h i (by omega) (by omega))
    simp only [retryLoop, h0]
    rw [hrec]
    refine Prod.ext ?_ ?_
    · dsimp only
      rcases n with _ | n'
      · simp
      · simp only [if_neg (Nat.succ_ne_zero n'), if_neg (Nat.succ_ne_zero n')]
        have hidx : attempt + 1 + (n' + 1) - 1 = attempt + (n' + 1 + 1) - 1 := by omega
        rw [hidx]
        simp
    · dsimp only
      rw [List.range_succ_eq_map, List.map_cons, List.map_map]
      refine congrArg₂ _ (by simp) ?_
      apply List.map_congr_left
      intro j _
      simp only [Function.comp_apply]
      have e1 : attempt + 1 + j - 1 = attempt + (j + 1) - 1 := by omega
      have e2 : attempt + 1 + j = attempt + (j + 1) := by omega
      rw [e1, e2]

/-- Closed form of the retry loop when attempt `k` is the first success:
the loop returns the success object built from that attempt's media and
took one backoff wait per preceding failed attempt. -/
theorem retryLoop_first_success (message : WMessage) (id : String)
    (oracle : Nat → AttemptResult) (jitter : Nat → Nat) :
    ∀ (fuel attempt : Nat) (le : Option String) (k : Nat) (m : MediaBlob),
      1 ≤ attempt → attempt ≤ k → k < attempt + fuel →
      (∀ i, attempt ≤ i → i < k → successOf (oracle i) = none) →
      successOf (oracle k) = some m →
      retryLoop message id oracle jitter fuel attempt le =
        (.ok (mkDownloadSuccess message id m),
         (List.range (k - attempt)).map fun j =>
           baseDelayMs * 2 ^ (attempt + j - 1) + jitter (attempt + j)) := by
  intro fuel
  induction fuel with
  | zero => intro attempt le k m _ h1 h2 _ _; omega
  | succ n ih =>
    intro attempt le k m hatt hak hkf hfail hsucc
    by_cases hk : attempt = k
    · subst hk
      simp [retryLoop, hsucc]
    · have h0 : successOf (oracle attempt) = none := hfail attempt le_rfl (by omega)
      have hrec := ih (attempt + 1) (some (failMsgOf (oracle attempt))) k m (by omega)
        (by omega) (by omega) (fun i hi1 hi2 => hfail i (by omega) hi2) hsucc
      simp only [retryLoop, h0]
      rw [hrec]
      refine Prod.ext rfl ?_
      dsimp only
      have hx : k - attempt = (k - (attempt + 1)) + 1 := by omega
      rw [hx, List.range_succ_eq_map, List.map_cons, List.map_map]
      refine congrArg₂ _ (by simp) ?_
      apply List.map_congr_left
      intro j _
      simp only [Function.comp_apply]
      have e1 : attempt + 1 + j - 1 = attempt + (j + 1) - 1 := by omega
      have e2 : attempt + 1 + j = attempt + (j + 1) := by omega
      rw [e1, e2]

/-- C4: once a message with media is located, the byte download is retried
with a bounded budget of 5 attempts: when all five attempts fail, the last
observed failure (the thrown error of attempt 5, or the explicit
`no media data returned` error when attempt 5 resolved empty) is thrown
after backoff waits of `400·2^(i-1) + jitter(i)` milliseconds per attempt
— 400ms doubling each attempt plus the per-attempt random jitter drawn
from `Math.floor(Math.random() * 150)`; when attempt `k ≤ 5` is the first
success, its media is returned after exactly `k - 1` such waits.  A retry
is triggered both by a thrown error and by a successful-but-empty result
(a missing media object or one with empty `data`), and a message without
media is rejected outright. -/
theorem downloadMessageMedia_spec :
    (∀ (message : WMessage) (id : String) (oracle : Nat → AttemptResult) (jitter : Nat → Nat),
      message.hasMedia = true →
      ((∀ i, 1 ≤ i → i ≤ 5 → successOf (oracle i) = none) →
        downloadMessageMedia message id oracle jitter =
          (.error (failMsgOf (oracle 5)),
           [400 + jitter 1, 800 + jitter 2, 1600 + jitter 3, 3200 + jitter 4, 6400 + jitter 5])) ∧
      (∀ k m, 1 ≤ k → k ≤ 5 → (∀ i, 1 ≤ i → i < k → successOf (oracle i) = none) →
        successOf (oracle k) = some m →
        downloadMessageMedia message id oracle jitter =
          (.ok (mkDownloadSuccess message id m),
           (List.range (k - 1)).map fun j => 400 * 2 ^ j + jitter (j + 1)))) ∧
    (∀ (message : WMessage) (id : String) (oracle : Nat → AttemptResult) (jitter : Nat → Nat),
      message.hasMedia = false →
      downloadMessageMedia message id oracle jitter =
        (.error "Message does not contain media", [])) ∧
    (∀ e, successOf (.threw e) = none) ∧
    successOf (.returned none) = none ∧
    (∀ mt, successOf (.returned (some ⟨"", mt⟩)) = none) ∧
    (∀ d mt, d ≠ "" → successOf (.returned (some ⟨d, mt⟩)) = some ⟨d, mt⟩) := by
  refine ⟨?_, ?_, fun e => rfl, rfl, fun mt => rfl, ?_⟩
  · intro message id oracle jitter hm
    constructor
    · intro hfail
      have h := retryLoop_all_fail message id oracle jitter 5 1 none le_rfl
        (fun i hi1 hi2 => hfail i hi1 (by omega))
      rw [downloadMessageMedia, if_pos hm, maxAttempts, h]
      norm_num [List.range_succ, baseDelayMs]
    · intro k m hk1 hk5 hfail hsucc
      have h := retryLoop_first_success message id oracle jitter 5 1 none k m le_rfl hk1
        (by omega) (fun i hi1 hi2 => hfail i hi1 hi2) hsucc
      rw [downloadMessageMedia, if_pos hm, maxAttempts, h]
      refine congrArg _ ?_
      apply List.map_congr_left
      intro j _
      have e1 : 1 + j - 1 = j := by omega
      have e2 : 1 + j = j + 1 := by omega
      rw [e1, e2, baseDelayMs]
  · intro message id oracle jitter hm
    rw [downloadMessageMedia, if_neg (by simp [hm])]
  · intro d mt hd
    simp [successOf, hd]

/-- Witness for `downloadMessageMedia_spec`: a thrown first attempt, an
empty second attempt and a successful third attempt yield the media after
waits 400 and 800 (zero jitter); five thrown attempts yield the last error
after all five jittered waits; and a message without media is rejected. -/
theorem downloadMessageMedia_spec_witness :
    downloadMessageMedia msgTarget "false_123@c.us_AAA" attemptsThirdOk (fun _ => 0) =
      (.ok { success := true, data := "QUJD", mimetype := "image/png",
             filename := "pic.jpg", messageId := "false_123@c.us_AAA" },
       [400, 800]) ∧
    downloadMessageMedia msgTarget "false_123@c.us_AAA" (fun _ => .threw "net down") (fun _ => 7) =
      (.error "net down", [407, 807, 1607, 3207, 6407]) ∧
    downloadMessageMedia ⟨"x", false, ""⟩ "x" attemptsThirdOk (fun _ => 0) =
      (.error "Message does not contain media", []) := by
  refine ⟨?_, ?_, ?_⟩
  · have h := ((downloadMessageMedia_spec.1 msgTarget "false_123@c.us_AAA" attemptsThirdOk
      (fun _ => 0)) (by decide)).2 3 ⟨"QUJD", "image/png"⟩ (by decide) (by decide)
      (by decide) (by decide)
    simpa [mkDownloadSuccess, msgTarget] using h
  · have h := ((downloadMessageMedia_spec.1 msgTarget "false_123@c.us_AAA"
      (fun _ => .threw "net down") (fun _ => 7)) (by decide)).1 (by decide)
    simpa using h
  · exact downloadMessageMedia_spec.2.1 ⟨"x", false, ""⟩ "x" attemptsThirdOk (fun _ => 0) rfl

/-- Every message returned by a `findInTake` window carries the target
id and belongs to the scanned history. -/
theorem findInTake_sound (limit : Nat) (msgs : List WMessage) (target : String)
    (mf : WMessage) (h : findInTake limit msgs target = some mf) :
    mf.idSer = target ∧ mf ∈ msgs := by
  have hp := List.find?_some h
  have hmem := List.mem_of_find?_eq_some h
  exact ⟨by simpa using hp, List.take_subset _ _ hmem⟩

/-- The widening targeted scan finds a message carrying the target id
whenever one exists among the chat's 1200 most recent messages, stopping
at the first of the windows 120, 300, 600, 1200 that contains it. -/
theorem stage2Find_finds (client : WClient) (id cid : String) (chat : WChat)
    (h1 : (jsSplit "_" id)[1]? = some cid)
    (h2 : client.chatById cid = some chat)
    (h3 : ∃ m ∈ chat.messages.take 1200, m.idSer = id) :
    ∃ mf, stage2Find client id = some mf ∧ mf.idSer = id ∧ mf ∈ chat.messages := by
  unfold stage2Find
  rw [h1]
  dsimp only
  rw [h2]
  dsimp only
  simp only [scanWindows, List.findSome?_cons]
  cases hf1 : findInTake 120 chat.messages id with
  | some mf => exact ⟨mf, rfl, (findInTake_sound _ _ _ _ hf1).1, (findInTake_sound _ _ _ _ hf1).2⟩
  | none =>
  cases hf2 : findInTake 300 chat.messages id with
  | some mf => exact ⟨mf, rfl, (findInTake_sound _ _ _ _ hf2).1, (findInTake_sound _ _ _ _ hf2).2⟩
  | none =>
  cases hf3 : findInTake 600 chat.messages id with
  | some mf => exact ⟨mf, rfl, (findInTake_sound _ _ _ _ hf3).1, (findInTake_sound _ _ _ _ hf3).2⟩
  | none =>
  cases hf4 : findInTake 1200 chat.messages id with
  | some mf => exact ⟨mf, rfl, (findInTake_sound _ _ _ _ hf4).1, (findInTake_sound _ _ _ _ hf4).2⟩
  | none =>
    exfalso
    obtain ⟨m, hm, hid⟩ := h3
    have := List.find?_eq_none.mp hf4 m hm
    simp [hid] at this

/-- C3: `downloadMedia` resolves a message id through three cost-ascending
stages, short-circuiting at the first that succeeds: (1) direct lookup by
id; (2) when the id's second underscore-delimited segment yields a chat
id, that chat's recent messages are fetched with windows 120, 300, 600,
1200 in order, stopping at the first window containing the target; (3)
otherwise all chats are enumerated, scanning each chat's 50 most recent
messages, stopping at the first match.  If no stage finds the message the
operation fails with the message-not-found error.  In particular a message
carrying the embedded chat id that exists within that chat's 1200 most
recent messages — even when absent from its 120 most recent — is found by
the widening scan and downloaded. -/
theorem downloadMediaFn_spec :
    (∀ (client : WClient) (id : String) (download : WMessage → Except String DownloadSuccess)
       (m : WMessage) (r : DownloadSuccess),
      client.byId id = some m → download m = .ok r →
      downloadMediaFn client id download = .ok r) ∧
    (∀ (client : WClient) (id : String) (download : WMessage → Except String DownloadSuccess)
       (m : WMessage) (r : DownloadSuccess),
      client.byId id = none → stage2Find client id = some m → download m = .ok r →
      downloadMediaFn client id download = .ok r) ∧
    (∀ (client : WClient) (id : String) (download : WMessage → Except String DownloadSuccess)
       (r : DownloadSuccess),
      client.byId id = none → stage2Find client id = none →
      stage3Download client id download = some r →
      downloadMediaFn client id download = .ok r) ∧
    (∀ (client : WClient) (id : String) (download : WMessage → Except String DownloadSuccess),
      client.byId id = none → stage2Find client id = none →
      stage3Download client id download = none →
      downloadMediaFn client id download =
        .error ("Failed to download media: Message with ID " ++ id
          ++ " not found in recent messages")) ∧
    (∀ (client : WClient) (id cid : String) (chat : WChat)
       (download : WMessage → Except String DownloadSuccess) (r : DownloadSuccess),
      client.byId id = none →
      (jsSplit "_" id)[1]? = some cid →
      client.chatById cid = some chat →
      (∃ m ∈ chat.messages.take 1200, m.idSer = id) →
      (∀ m ∈ chat.messages, m.idSer = id → download m = .ok r) →
      downloadMediaFn client id download = .ok r) := by
  refine ⟨?_, ?_, ?_, ?_, ?_⟩
  · intro client id download m r h1 h2
    simp [downloadMediaFn, h1, h2]
  · intro client id download m r h1 h2 h3
    simp [downloadMediaFn, h1, h2, h3]
  · intro client id download r h1 h2 h3
    simp [downloadMediaFn, h1, h2, h3]
  · intro client id download h1 h2 h3
    simp [downloadMediaFn, h1, h2, h3]
  · intro client id cid chat download r h1 h2 h3 h4 h5
    obtain ⟨mf, hs2, hid, hmem⟩ := stage2Find_finds client id cid chat h2 h3 h4
    simp [downloadMediaFn, h1, hs2, h5 mf hmem hid]

set_option maxRecDepth 40000 in
/-- Witness for `downloadMediaFn_spec`: on the fixture client, the target
sits at depth 121 of its chat — absent from the 120 most recent messages
but within the 1200 most recent — and direct lookup fails, yet
`downloadMedia` succeeds via the widening scan; the not-found error is
also exhibited on an id no stage can locate. -/
theorem downloadMediaFn_spec_witness :
    downloadMediaFn clientDeep "false_123@c.us_AAA" dlAlwaysOk =
      .ok { success := true, data := "QUJD", mimetype := "image/jpeg",
            filename := "pic.jpg", messageId := "false_123@c.us_AAA" } ∧
    findInTake 120 chatDeep.messages "false_123@c.us_AAA" = none ∧
    (∃ m ∈ chatDeep.messages.take 1200, m.idSer = "false_123@c.us_AAA") ∧
    downloadMediaFn clientDeep "nope" dlAlwaysOk =
      .error "Failed to download media: Message with ID nope not found in recent messages" := by
  refine ⟨?_, by decide, ⟨msgTarget, by decide, rfl⟩, ?_⟩
  · exact downloadMediaFn_spec.2.2.2.2 clientDeep "false_123@c.us_AAA" "123@c.us" chatDeep
      dlAlwaysOk _ (by decide) (by decide) (by decide) ⟨msgTarget, by decide, rfl⟩
      (by decide)
  · exact downloadMediaFn_spec.2.2.2.1 clientDeep "nope" dlAlwaysOk
      (by decide) (by decide) (by decide)

/-- A socket that is not connected receives nothing from an event
delivery. -/
theorem filter_deliveries_not_mem (connected : List Nat) (e : RegEvent) (sid : Nat)
    (h : sid ∉ connected) :
    ((connected.map fun s => (emissionsFor e).map fun cp => (s, cp.1, cp.2)).flatten.filter
      (fun t => t.1 = sid)) = [] := by
  induction connected with
  | nil => rfl
  | cons c rest ih =>
    simp only [List.mem_cons, not_or] at h
    simp only [List.map_cons, List.flatten_cons, List.filter_append]
    rw [ih h.2, List.append_nil, List.filter_eq_nil]
    intro t ht
    simp only [List.mem_map] at ht
    obtain ⟨cp, _, rfl⟩ := ht
    simpa using fun he => h.1 he.symm

/-- A socket connected exactly once receives exactly the `emissionsFor`
copies, in order, from one event delivery. -/
theorem filter_deliveries_count_one (connected : List Nat) (e : RegEvent) (sid : Nat)
    (h : connected.count sid = 1) :
    (((connected.map fun s => (emissionsFor e).map fun cp => (s, cp.1, cp.2)).flatten.filter
      (fun t => t.1 = sid)).map fun t => t.2) = emissionsFor e := by
  induction connected with
  | nil => simp at h
  | cons c rest ih =>
    by_cases hc : c = sid
    · subst hc
      rw [List.count_cons_self] at h
      have hnot : c ∉ rest := List.count_eq_zero.mp (by omega)
      simp only [List.map_cons, List.flatten_cons, List.filter_append]
      rw [filter_deliveries_not_mem rest e c hnot, List.append_nil]
      rw [List.filter_eq_self.mpr ?_]
      · rw [List.map_map]
        apply List.map_id''
        intro cp
        rfl
      · intro t ht
        simp only [List.mem_map] at ht
        obtain ⟨cp, _, rfl⟩ := ht
        simp
    · rw [List.count_cons_of_ne (fun he => hc he.symm)] at h
      simp only [List.map_cons, List.flatten_cons, List.filter_append]
      have hhead : List.filter (fun t => decide (t.1 = sid))
          ((emissionsFor e).map fun cp => (c, cp.1, cp.2)) = [] := by
        rw [List.filter_eq_nil]
        intro t ht
        simp only [List.mem_map] at ht
        obtain ⟨cp, _, rfl⟩ := ht
        simpa using fun he => hc he
      rw [hhead, List.nil_append]
      exact ih h

/-- Before its connection step, a socket receives nothing: running any
trace that does not connect `sid` leaves `sid` unconnected and delivers
nothing to it. -/
theorem fanRun_before_connect (sid : Nat) :
    ∀ (steps : List FanStep) (st : FanState),
      sid ∉ st.connected → FanStep.connect sid ∉ steps →
      sid ∉ (fanRun st steps).connected ∧
      (fanRun st steps).inbox.filter (fun t => t.1 = sid) =
        st.inbox.filter (fun t => t.1 = sid) := by
  intro steps
  induction steps with
  | nil => intro st h1 _; exact ⟨h1, rfl⟩
  | cons s rest ih =>
    intro st h1 h2
    simp only [List.mem_cons, not_or] at h2
    have hstep : fanRun st (s :: rest) = fanRun (fanStep st s) rest := rfl
    rw [hstep]
    cases s with
    | connect sid' =>
      have hne : sid' ≠ sid := fun he => h2.1 (by rw [he])
      have hsing : List.filter (fun t => decide (t.1 = sid))
          [(sid', "sessions_list", SocketPayload.sessionsList (getAllSessions st.sm))] = [] := by
        simp [hne]
      refine ih (fanStep st (.connect sid')) ?_ h2.2 |>.imp id ?_
      · simp only [fanStep, List.mem_append, List.mem_singleton, not_or]
        exact ⟨h1, fun he => hne he.symm⟩
      · intro hq
        rw [hq]
        simp only [fanStep, List.filter_append]
        rw [hsing, List.append_nil]
    | emitEv e =>
      refine ih (fanStep st (.emitEv e)) h1 h2.2 |>.imp id ?_
      intro hq
      rw [hq]
      simp only [fanStep, List.filter_append]
      rw [filter_deliveries_not_mem st.connected e sid h1, List.append_nil]
    | setRegistry sm =>
      exact ih (fanStep st (.setRegistry sm)) h1 h2.2

/-- After its connection step, a socket connected exactly once receives,
appended in order, the full `emissionsFor` copies of every event fired by
the rest of the trace — and nothing else. -/
theorem fanRun_after_connect (sid : Nat) :
    ∀ (steps : List FanStep) (st : FanState),
      st.connected.count sid = 1 → FanStep.connect sid ∉ steps →
      inboxOf (fanRun st steps) sid =
        inboxOf st sid ++ ((steps.filterMap emitOf).map emissionsFor).flatten := by
  intro steps
  induction steps with
  | nil => intro st _ _; simp [fanRun]
  | cons s rest ih =>
    intro st h1 h2
    simp only [List.mem_cons, not_or] at h2
    have hstep : fanRun st (s :: rest) = fanRun (fanStep st s) rest := rfl
    rw [hstep]
    cases s with
    | connect sid' =>
      have hne : sid' ≠ sid := fun he => h2.1 (by rw [he])
      have hcount : (fanStep st (.connect sid')).connected.count sid = 1 := by
        simp only [fanStep, List.count_append]
        rw [List.count_singleton']
        simp [hne, h1]
      rw [ih (fanStep st (.connect sid')) hcount h2.2]
      have hsing : List.filter (fun t => decide (t.1 = sid))
          [(sid', "sessions_list", SocketPayload.sessionsList (getAllSessions st.sm))] = [] := by
        simp [hne]
      have hbox : inboxOf (fanStep st (.connect sid')) sid = inboxOf st sid := by
        simp only [inboxOf, fanStep, List.filter_append]
        rw [hsing, List.append_nil]
      rw [hbox]
      rfl
    | emitEv e =>
      have hcount : (fanStep st (.emitEv e)).connected.count sid = 1 := h1
      rw [ih (fanStep st (.emitEv e)) hcount h2.2]
      have hbox : inboxOf (fanStep st (.emitEv e)) sid = inboxOf st sid ++ emissionsFor e := by
        simp only [inboxOf, fanStep, List.filter_append, List.map_append]
        rw [filter_deliveries_count_one st.connected e sid h1]
      rw [hbox, List.append_assoc]
      rfl
    | setRegistry sm =>
      exact ih (fanStep st (.setRegistry sm)) h1 h2.2

/-- Counterexample to C6 as stated: for a `message` event there is no
additional chat-scoped copy under the `message` event name — the channel
`message:tenantId:label:<chat>` is never emitted.  The chat-addressed
copies are emitted under the distinct event kind `chat_message` (suffixed
with the message's `from` field) and carry the bare message object. -/
theorem fanout_chat_scope_counterexample :
    ((emissionsFor (.messageEv "t1" "lbl" msgPayload0)).map Prod.fst) =
      ["message:t1:lbl", "message", "chat_message:t1:lbl:123@c.us", "chat_message:t1:lbl"] ∧
    "message:t1:lbl:123@c.us" ∉
      ((emissionsFor (.messageEv "t1" "lbl" msgPayload0)).map Prod.fst) := by
  decide

/-- C6 (amended): every live subscriber receives, for each registry-level
event, both a global copy under the unscoped event name and a scoped copy
addressed by `event:tenantId:label`; for `message` events it additionally
receives two chat-addressed copies under the separate event kind
`chat_message` — `chat_message:tenantId:label:<from>` (scoped by the
message's `from` field) and `chat_message:tenantId:label` — carrying the
message object alone.  No event is buffered for subscribers that connect
after it fired: over any trace, a subscriber receives exactly one
synchronous `sessions_list` snapshot of the registry as of its connection,
followed by the copies of exactly the events emitted after it connected,
in order. -/
theorem fanout_spec :
    (∀ a l q, emissionsFor (.qrEv a l q) =
      [("qr:" ++ a ++ ":" ++ l, .evPayload (.qrEv a l q)),
       ("qr", .evPayload (.qrEv a l q))]) ∧
    (∀ a l stv h, emissionsFor (.statusEv a l stv h) =
      [("status:" ++ a ++ ":" ++ l, .evPayload (.statusEv a l stv h)),
       ("status", .evPayload (.statusEv a l stv h))]) ∧
    (∀ a l m, emissionsFor (.messageEv a l m) =
      [("message:" ++ a ++ ":" ++ l, .evPayload (.messageEv a l m)),
       ("message", .evPayload (.messageEv a l m)),
       ("chat_message:" ++ a ++ ":" ++ l ++ ":" ++ m.msgFrom, .msgPayload m),
       ("chat_message:" ++ a ++ ":" ++ l, .msgPayload m)]) ∧
    (∀ a l, emissionsFor (.sessionDestroyedEv a l) =
      [("session_destroyed:" ++ a ++ ":" ++ l, .evPayload (.sessionDestroyedEv a l)),
       ("session_destroyed", .evPayload (.sessionDestroyedEv a l))]) ∧
    (∀ (sm0 : SMState) (pre post : List FanStep) (sid : Nat),
      FanStep.connect sid ∉ pre → FanStep.connect sid ∉ post →
      inboxOf (fanRun { sm := sm0, connected := [], inbox := [] }
          (pre ++ FanStep.connect sid :: post)) sid =
        ("sessions_list",
          .sessionsList (getAllSessions (fanRun { sm := sm0, connected := [], inbox := [] } pre).sm)) ::
        ((post.filterMap emitOf).map emissionsFor).flatten) := by
  refine ⟨fun a l q => rfl, fun a l stv h => rfl, fun a l m => rfl, fun a l => rfl, ?_⟩
  intro sm0 pre post sid hpre hpost
  have hsplit : fanRun { sm := sm0, connected := [], inbox := [] }
      (pre ++ FanStep.connect sid :: post) =
      fanRun (fanStep (fanRun { sm := sm0, connected := [], inbox := [] } pre)
        (FanStep.connect sid)) post := by
    simp [fanRun, List.foldl_append]
  rw [hsplit]
  set st1 := fanRun { sm := sm0, connected := [], inbox := [] } pre with hst1
  obtain ⟨hnc, hfilter⟩ := fanRun_before_connect sid pre
    { sm := sm0, connected := [], inbox := [] } (by simp) hpre
  rw [← hst1] at hnc hfilter
  have hcount : (fanStep st1 (.connect sid)).connected.count sid = 1 := by
    simp only [fanStep, List.count_append]
    rw [List.count_eq_zero.mpr hnc, List.count_singleton]
    simp
  rw [fanRun_after_connect sid post (fanStep st1 (.connect sid)) hcount hpost]
  have hbox : inboxOf (fanStep st1 (.connect sid)) sid =
      [("sessions_list", .sessionsList (getAllSessions st1.sm))] := by
    simp only [inboxOf, fanStep, List.filter_append, hfilter]
    simp
  rw [hbox]
  rfl

/-- Witness for the hypothesised trace conjunct of `fanout_spec`: a
subscriber connecting after a `qr` event misses it entirely, receives the
snapshot of the current registry, and then receives all four copies of a
later `message` event. -/
theorem fanout_spec_witness :
    inboxOf (fanRun { sm := smFive, connected := [], inbox := [] }
        ([FanStep.emitEv (.qrEv "t0" "main" "QR0")] ++ FanStep.connect 7 ::
         [FanStep.emitEv (.messageEv "t1" "lbl" msgPayload0)])) 7 =
      ("sessions_list", .sessionsList (getAllSessions smFive)) ::
      emissionsFor (.messageEv "t1" "lbl" msgPayload0) := by
  have h := fanout_spec.2.2.2.2 smFive [FanStep.emitEv (.qrEv "t0" "main" "QR0")]
    [FanStep.emitEv (.messageEv "t1" "lbl" msgPayload0)] 7 (by simp) (by simp)
  simpa using h

/-- Witness for the hypothesised conjuncts of `sendBufferWithRange_spec`:
a malformed header is 416, a parsed-but-unsatisfiable range is 416, and a
parsed valid range is served in full detail, all at concrete inputs. -/
theorem sendBufferWithRange_spec_witness :
    (sendBufferWithRange [0, 1, 2] "m" "f" (some "units=1-2")).status = 416 ∧
    (sendBufferWithRange [0, 1, 2] "m" "f" (some "bytes=5-9")).status = 416 ∧
    sendBufferWithRange [0, 1, 2] "m" "f" (some "bytes=1-2") =
      { status := 206, contentType := "m", acceptRanges := "bytes",
        contentRange := some "bytes 1-2/3", contentLength := some "2",
        contentDisposition := some "inline; filename=\"f\"",
        body := [1, 2] } := by
  refine ⟨?_, ?_, ?_⟩
  · exact sendBufferWithRange_spec.1 [0, 1, 2] "m" "f" "units=1-2" (by decide) (by decide)
  · exact (sendBufferWithRange_spec.2.1 [0, 1, 2] "m" "f" "bytes=5-9"
      ['5'] ['9'] (by decide) (by decide)).1 (by decide)
  · have h := (sendBufferWithRange_spec.2.1 [0, 1, 2] "m" "f" "bytes=1-2"
      ['1'] ['2'] (by decide) (by decide)).2 (by decide) (by decide)
    simpa using h

end CipWs
